import Mathlib

/-!
Verification of the natural-kit speech-to-text nodes.

This file gives a shallow embedding of the session-lifecycle controllers and
the streaming-transcription machinery of the repository:

- `OpenAIState` with `openaiStart` / `openaiAbort` / `openaiSettle` embeds the
  `OpenAIStreamingSttNode` and `OpenAISttNode` custom elements (the two classes
  share this lifecycle verbatim).
- `AzureState` with `azureStart` / `azureAbort` / `azureBeginSettle` embeds
  `AzureSttNode`.
- `WebState` with `webStart` / `webOnError` / `webOnEnd` / `webStop` embeds
  `WebSttNode`.
- `SSEState` with `processRead` / `processLines` embeds the server-sent-event
  response loop of `transcribeOpenAIStreaming`.
- `openaiMultipartBody` embeds the multipart/form-data body stream built by
  `transcribeOpenAIStreaming`, and `parseMultipart` is an independent
  multipart-form-data reader used to state the round-trip property.

JavaScript strings are modelled as `List Char`; the single-threaded event-loop
semantics is modelled by sequential application of the step functions, and the
observable side effects of a step (getUserMedia, recorder start, network
request, event dispatch, logging) are collected in an ordered `List Effect`.
-/

namespace NaturalKit

/-- Observable side effects of the nodes, in the order they are performed. -/
inductive Effect where
  | getUserMedia
  | recorderStart
  | recorderStop
  | fetchStart
  | abortSignal
  | dispatchRecognized (text : String) (isFinal : Bool)
  | logError
deriving DecidableEq

/-! ### List-of-char utilities shared by the parsers -/

/-- CRLF line terminator used by the multipart encoder. -/
def crlf : List Char := ['\r', '\n']

/-- Two dashes, the multipart boundary marker. -/
def dashdash : List Char := ['-', '-']

/-- Strip an exact prefix, or fail. -/
def dropPrefixQ (p l : List Char) : Option (List Char) :=
  if p.isPrefixOf l then some (l.drop p.length) else none

/-- Split a character list at the first occurrence of `delim`, returning the
text before the occurrence and the text after it. Fails when `delim` does not
occur. -/
def splitFirst (delim : List Char) : List Char → Option (List Char × List Char)
  | [] => none
  | c :: rest =>
    if delim.isPrefixOf (c :: rest) then some ([], (c :: rest).drop delim.length)
    else
      match splitFirst delim rest with
      | some (a, r) => some (c :: a, r)
      | none => none

/-! ### OpenAI nodes (`OpenAIStreamingSttNode` and `OpenAISttNode`)

The two classes `OpenAIStreamingSttNode` (openai-stt-streaming-node.ts) and
`OpenAISttNode` share their lifecycle code verbatim (fields `isStarted`,
`isMicStarted`, `mediaRecorderResolvers`, `abortController`, `transcription$`,
and methods `startMicrophone` / `start` / `stop` / `abort`), so one embedding
serves both. `inFlight` records that the promise returned by
`transcribeOpenAIStreaming` / `transcribeOpenAI` has not yet settled. -/

structure OpenAIState where
  isStarted : Bool
  isMicStarted : Bool
  inFlight : Bool
  hasAbortController : Bool
deriving DecidableEq

/-- A fresh `OpenAIStreamingSttNode` / `OpenAISttNode` element. -/
def openaiFresh : OpenAIState :=
  { isStarted := false, isMicStarted := false, inFlight := false
    hasAbortController := false }

/-- Method `startMicrophone()`: returns immediately if the mic is already started,
otherwise calls `navigator.mediaDevices.getUserMedia` and caches the
`MediaRecorder`. -/
def openaiStartMicrophone (s : OpenAIState) : OpenAIState × List Effect :=
  if s.isMicStarted then (s, [])
  else ({ s with isMicStarted := true }, [.getUserMedia])

/-- Method `start()`: no-op if already started; otherwise `await startMicrophone()`,
then read the settings collaborator and throw `"Missing OpenAI API key"` when
the key is absent; on success set `isStarted`, arm a fresh `AbortController`,
call `mediaRecorder.start(250)` and kick off the (unawaited) transcription
request. The `Except` component is the settlement of the promise returned by
the `async` method itself: `.ok ()` models resolution with `undefined`. -/
def openaiStart (key : Option String) (s : OpenAIState) :
    OpenAIState × List Effect × Except String Unit :=
  if s.isStarted then (s, [], .ok ())
  else
    let (s1, e1) := openaiStartMicrophone s
    match key with
    | none => (s1, e1, .error "Missing OpenAI API key")
    | some _ =>
      ({ s1 with isStarted := true, hasAbortController := true, inFlight := true },
       e1 ++ [.recorderStart, .fetchStart], .ok ())

/-- Method `stop()`: no-op if not started; otherwise stop the recorder (when it is
recording) and clear `isStarted`. -/
def openaiStop (s : OpenAIState) : OpenAIState × List Effect :=
  if !s.isStarted then (s, [])
  else ({ s with isStarted := false }, [.recorderStop])

/-- Method `abort()`: no-op if not started; otherwise fire `abortController.abort()`
and clear `isStarted` synchronously. The in-flight transcription settles
later (see `openaiSettle`). -/
def openaiAbort (s : OpenAIState) : OpenAIState × List Effect :=
  if !s.isStarted then (s, [])
  else ({ s with isStarted := false }, [.abortSignal])

/-- The error path inside `transcribeOpenAIStreaming` / `transcribeOpenAI`'s
`catch`: call `onError` (which logs and pushes `""` into `transcription$`,
dispatching an empty final recognized event) and rethrow. `netResult`
abstracts the outcome of the fetch-and-parse body: `.ok text` is a normal
completion with final text, `.error e` any rejection (network failure,
non-2xx response, or an `AbortError` from the cancellation signal). -/
def openaiTranscribeOutcome (netResult : Except String String) :
    List Effect × Except String String :=
  match netResult with
  | .ok text => ([], .ok text)
  | .error e => ([.logError, .dispatchRecognized "" true], .error e)

/-- Settlement of the transcription kicked off by `start()`: the node chains
`.then((text) => this.transcription$.next(text))` and
`.catch((err) => console.error(...))` onto the transcribe promise. The result
is a plain effect list: the terminal `.catch` absorbs every rejection, so no
error escapes to the host page from this chain. -/
def openaiSettle (netResult : Except String String) : List Effect :=
  let (effs, out) := openaiTranscribeOutcome netResult
  match out with
  | .ok text => effs ++ [.dispatchRecognized text true]
  | .error _ => effs ++ [.logError]

/-- Settlement including the bookkeeping that the transcribe promise is no
longer pending. -/
def openaiSettleState (s : OpenAIState) : OpenAIState :=
  { s with inFlight := false }

/-! ### Azure node (`AzureSttNode`) -/

/-- The fate of the one promise object handed out for a cycle. -/
inductive PromiseSt where
  | pending
  | resolved (value : String)
  | rejected (reason : String)
deriving DecidableEq

/-- State of an `AzureSttNode` element. `hasPromiseAPI` tracks whether the
field `transcriptionPromiseAPI` is non-null, `hasAbortController` whether
`abortController` is non-null. -/
structure AzureState where
  isStarted : Bool
  isMicrophoneStarted : Bool
  hasPromiseAPI : Bool
  hasAbortController : Bool
deriving DecidableEq

/-- A fresh `AzureSttNode` element. -/
def azureFresh : AzureState :=
  { isStarted := false, isMicrophoneStarted := false, hasPromiseAPI := false
    hasAbortController := false }

/-- What `AzureSttNode.start()` returns to its caller. -/
inductive AzureStartResult where
  | existing        -- already started: the in-flight cycle's promise
  | emptyResolved   -- already started but no promise field: Promise.resolve("")
  | rejectedMissing -- Promise.reject(new Error("Missing Azure Speech credentials"))
  | pending         -- the freshly created transcription promise
deriving DecidableEq

/-- Method `startMicrophone()` of the Azure node: same idempotent getUserMedia
caching as the OpenAI nodes. -/
def azureStartMicrophone (s : AzureState) : AzureState × List Effect :=
  if s.isMicrophoneStarted then (s, [])
  else ({ s with isMicrophoneStarted := true }, [.getUserMedia])

/-- Method `start()`: if already started, return the existing promise (or a promise
already resolved with `""` when the field is null). Otherwise read the
settings collaborator FIRST and reject with the missing-credentials error
before any side effect; on success set `isStarted`, create the promise API
and abort controller, start the microphone if needed, and kick off
`beginTranscription` (recorder start + network request). -/
def azureStart (creds : Option (String × String)) (s : AzureState) :
    AzureState × List Effect × AzureStartResult :=
  if s.isStarted then
    (s, [], if s.hasPromiseAPI then .existing else .emptyResolved)
  else
    match creds with
    | none => (s, [], .rejectedMissing)
    | some _ =>
      let s1 := { s with isStarted := true, hasPromiseAPI := true, hasAbortController := true }
      let (s2, micEffs) := azureStartMicrophone s1
      (s2, micEffs ++ [.recorderStart, .fetchStart], .pending)

/-- The response shape used by `beginTranscription`: only the texts of
`combinedPhrases` matter to the node. -/
structure AzureTR where
  combinedPhrases : List String
deriving DecidableEq

/-- Settlement of `beginTranscription`: on success push
`result.combinedPhrases.at(0)?.text ?? ""` into `transcription$` (dispatching
a final recognized event) and resolve the pending promise with it; on any
rejection (network failure, non-2xx, abort) push `""`, resolve the promise
with `""` and log. The `finally` block then resets `isStarted`,
`transcriptionPromiseAPI` and `abortController`. The `String` component is
the value passed to the promise's `resolve` — the promise is resolved, never
rejected, on both paths. -/
def azureBeginSettle (outcome : Except String AzureTR) (s : AzureState) :
    AzureState × List Effect × String :=
  let reset : AzureState :=
    { s with isStarted := false, hasPromiseAPI := false, hasAbortController := false }
  match outcome with
  | .ok r =>
    let text := r.combinedPhrases.head?.getD ""
    (reset, [.dispatchRecognized text true], text)
  | .error _ =>
    (reset, [.dispatchRecognized "" true, .logError], "")

/-- Method `stop()`: no-op if not started; otherwise stop the recorder. `isStarted`
is deliberately NOT cleared here (the source comment: it is cleared in the
`finally` block of `beginTranscription`). -/
def azureStop (s : AzureState) : AzureState × List Effect :=
  if !s.isStarted then (s, [])
  else (s, [.recorderStop])

/-- Method `abort()`: no-op if not started; otherwise fire the abort controller.
The state fields are untouched: `isStarted` remains true until the aborted
fetch settles and `beginTranscription`'s `finally` runs. -/
def azureAbort (s : AzureState) : AzureState × List Effect :=
  if !s.isStarted then (s, [])
  else (s, [.abortSignal])

/-! ### Local recognition node (`WebSttNode`) -/

/-- State of a `WebSttNode` element. `promise` is `none` when the field
`transcriptionPromise` is null, otherwise it carries the fate of the promise
object. `recogStartCalls` / `recogStopCalls` / `recogAbortCalls` count the
calls into the underlying `webkitSpeechRecognition`, and `initCalls` the
calls to `initSession()` (each of which reassigns — never duplicates — the
`onstart` / `onresult` / `onerror` / `onend` handler slots). -/
structure WebState where
  isStarted : Bool
  continuous : Bool
  interimResults : Bool
  lang : String
  promise : Option PromiseSt
  recogStartCalls : Nat
  recogStopCalls : Nat
  recogAbortCalls : Nat
  initCalls : Nat
deriving DecidableEq

/-- A fresh `WebSttNode`: the constructor sets `interimResults = true`. -/
def webFresh : WebState :=
  { isStarted := false, continuous := false, interimResults := true, lang := ""
    promise := none, recogStartCalls := 0, recogStopCalls := 0
    recogAbortCalls := 0, initCalls := 0 }

/-- Method `initSession()`: sets `isStarted = true`, `continuous = true`,
`lang = "en-US"` and (re)assigns the four recognition handler slots. -/
def webInitSession (s : WebState) : WebState :=
  { s with isStarted := true, continuous := true, lang := "en-US"
           initCalls := s.initCalls + 1 }

/-- What `WebSttNode.start()` returns. -/
inductive WebStartResult where
  | existing     -- already started, existing promise returned
  | existingNew  -- already started, a fresh promise created and returned
  | fresh        -- new session: fresh promise returned, recognition started
deriving DecidableEq

/-- Method `start()`: when already started, return the existing transcription
promise (creating a fresh pending one only if the field is null) WITHOUT
touching the recognizer; otherwise create the promise, run `initSession()`
and call `recognition.start()`. -/
def webStart (s : WebState) : WebState × WebStartResult :=
  if s.isStarted then
    match s.promise with
    | none => ({ s with promise := some .pending }, .existingNew)
    | some _ => (s, .existing)
  else
    let s1 := webInitSession { s with promise := some .pending }
    ({ s1 with recogStartCalls := s1.recogStartCalls + 1 }, .fresh)

/-- The `onresult` handler: dispatch a recognized event with the latest
result; when it is final, resolve the pending promise with its text and null
the field. The `Option String` component is the value passed to `resolve`
(when the promise field was non-null). -/
def webOnResult (text : String) (isFinal : Bool) (s : WebState) :
    WebState × List Effect × Option String :=
  if isFinal then
    let rv := s.promise.map fun _ => text
    ({ s with promise := none }, [.dispatchRecognized text isFinal], rv)
  else (s, [.dispatchRecognized text isFinal], none)

/-- The `onerror` handler: log, reject the pending promise with the error,
clear `isStarted`, and — when `continuous` is still true — call
`initSession()` followed by `this.start()`. `initSession()` sets `isStarted`
back to true, so that `start()` call takes its already-started branch and
never reaches `recognition.start()`. -/
def webOnError (e : String) (s : WebState) : WebState × List Effect :=
  let s1 : WebState :=
    { s with
      promise := s.promise.map fun p => match p with | .pending => .rejected e | x => x
      isStarted := false }
  if s1.continuous then
    let s2 := webInitSession s1
    ((webStart s2).1, [.logError])
  else (s1, [.logError])

/-- The `onend` handler: clear `isStarted`, resolve the pending promise with
`""` and null the field, call `recognition.stop()`, and — when `continuous`
is still true — call `initSession()` and `recognition.start()` directly. -/
def webOnEnd (s : WebState) : WebState × List Effect × Option String :=
  let rv := s.promise.map fun _ => ""
  let s1 : WebState :=
    { s with isStarted := false, promise := none
             recogStopCalls := s.recogStopCalls + 1 }
  if s1.continuous then
    let s2 := webInitSession s1
    ({ s2 with recogStartCalls := s2.recogStartCalls + 1 }, [], rv)
  else (s1, [], rv)

/-- Method `stop()`: clear `continuous` and call `recognition.stop()`. -/
def webStop (s : WebState) : WebState :=
  { s with continuous := false, recogStopCalls := s.recogStopCalls + 1 }

/-- Method `abort()`: clear `continuous` and call `recognition.abort()`. -/
def webAbort (s : WebState) : WebState :=
  { s with continuous := false, recogAbortCalls := s.recogAbortCalls + 1 }

/-- An OpenAI node mid-cycle: started, mic acquired, transcription pending. -/
def openaiStarted : OpenAIState :=
  { isStarted := true, isMicStarted := true, inFlight := true
    hasAbortController := true }

/-- An Azure node mid-cycle. -/
def azureStarted : AzureState :=
  { isStarted := true, isMicrophoneStarted := true, hasPromiseAPI := true
    hasAbortController := true }

/-! ### Server-sent-event reading loop of `transcribeOpenAIStreaming`

The response body is consumed read by read; each read's text is appended to
`buffer`, the buffer is split on `"\n"`, the (possibly incomplete) last piece
is held back, and each complete line is processed: lines not starting with
`"data: "` are ignored, a `[DONE]` payload breaks out of the loop over the
current read's lines, and otherwise the payload is `JSON.parse`d, with
malformed payloads skipped under a warning. -/

/-- JS `String.prototype.split("\n")` on a character list: `[]` maps to
`[[]]`, and every `'\n'` separates pieces (so a trailing newline yields a
trailing empty piece). -/
def splitLines : List Char → List (List Char)
  | [] => [[]]
  | '\n' :: rest => [] :: splitLines rest
  | c :: rest =>
    match splitLines rest with
    | [] => [[c]]
    | l :: ls => (c :: l) :: ls

/-- Whitespace for the purposes of JS `String.prototype.trim` (the characters
that occur in this code path). -/
def isJsWhitespace (c : Char) : Bool :=
  c == ' ' || c == '\t' || c == '\n' || c == '\r'

/-- JS `String.prototype.trim`. -/
def trimList (l : List Char) : List Char :=
  ((l.dropWhile isJsWhitespace).reverse.dropWhile isJsWhitespace).reverse

/-- Read one JSON string literal without escapes: `"…"`. -/
def parseJString : List Char → Option (List Char × List Char)
  | '"' :: rest =>
    let content := rest.takeWhile fun c => c ≠ '"'
    match rest.drop content.length with
    | '"' :: r2 => some (content, r2)
    | _ => none
  | _ => none

/-- Read a comma-separated sequence of `"key":"value"` pairs. -/
def parseJPairs : Nat → List Char → Option (List (List Char × List Char) × List Char)
  | 0, _ => none
  | fuel + 1, input =>
    match parseJString input with
    | none => none
    | some (k, r1) =>
      match r1 with
      | ':' :: r2 =>
        match parseJString r2 with
        | none => none
        | some (v, r3) =>
          match r3 with
          | ',' :: r4 =>
            match parseJPairs fuel r4 with
            | none => none
            | some (ps, r) => some ((k, v) :: ps, r)
          | _ => some ([(k, v)], r3)
      | _ => none

/-- Models the platform's `JSON.parse` restricted to the shape the streaming
frames take: a flat object with escape-free string keys and string values and
no interior whitespace. Any input outside this fragment is treated as a parse
failure, which the read loop handles through its `catch` branch (skip the
frame with a warning). -/
def jsonParseFlat (s : List Char) : Option (List (List Char × List Char)) :=
  match s with
  | '\x7b' :: '\x7d' :: rest => if rest = [] then some [] else none
  | '\x7b' :: rest =>
    match parseJPairs (rest.length + 1) rest with
    | some (ps, ['\x7d']) => some ps
    | _ => none
  | _ => none

/-- First-match association lookup (JS property access on the parsed
object). -/
def lookupStr (obj : List (List Char × List Char)) (key : List Char) :
    Option (List Char) :=
  match obj with
  | [] => none
  | (k, v) :: rest => if k = key then some v else lookupStr rest key

/-- State of the SSE read loop: the held-back incomplete line, the value of
`finalText` (a JS string variable, `none` modelling `undefined`), the ordered
deltas passed to `onDelta` so far, and the count of malformed frames skipped
with a warning. -/
structure SSEState where
  buffer : List Char
  finalText : Option (List Char)
  deltas : List (Option (List Char))
  warnCount : Nat
deriving DecidableEq

/-- The loop state at the start of the read loop: empty buffer,
`finalText = ""`, nothing emitted. -/
def initSSE : SSEState :=
  { buffer := [], finalText := some [], deltas := [], warnCount := 0 }

/-- The marker selecting data frames. -/
def dataMarker : List Char := "data: ".toList

/-- Handling of one `data: ` payload: `JSON.parse` it (malformed frames are
skipped under a warning); a `transcript.text.delta` frame forwards its
`delta` to `onDelta`, a `transcript.text.done` frame overwrites `finalText`
with its `text`. -/
def processData (st : SSEState) (data : List Char) : SSEState :=
  match jsonParseFlat data with
  | none => { st with warnCount := st.warnCount + 1 }
  | some obj =>
    match lookupStr obj "type".toList with
    | some t =>
      if t = "transcript.text.delta".toList then
        { st with deltas := st.deltas ++ [lookupStr obj "delta".toList] }
      else if t = "transcript.text.done".toList then
        { st with finalText := lookupStr obj "text".toList }
      else st
    | none => st

/-- The `for (const line of lines)` loop of one read: lines that do not start
with `"data: "` are ignored; a line whose payload trims to `[DONE]` breaks
out of this (inner) loop, leaving the remaining lines of the current read
unprocessed; other payloads go through `processData`. -/
def processLines (st : SSEState) : List (List Char) → SSEState
  | [] => st
  | line :: rest =>
    if dataMarker.isPrefixOf line then
      let data := line.drop 6
      if trimList data = "[DONE]".toList then st
      else processLines (processData st data) rest
    else processLines st rest

/-- One `reader.read()` step: append the decoded chunk to the buffer, split
on newlines, hold back the incomplete last piece, and run the line loop on
the complete lines. -/
def processRead (st : SSEState) (chunk : List Char) : SSEState :=
  let parts := splitLines (st.buffer ++ chunk)
  let lines := parts.dropLast
  processLines { st with buffer := parts.getLast?.getD [] } lines

/-- The outer `while` loop over a whole sequence of reads (the loop exits
only when the reader reports `done`). -/
def runReads (reads : List (List Char)) (st : SSEState) : SSEState :=
  reads.foldl processRead st

/-- The first half of a delta frame, as delivered by one read (the spec's own
test vector): `data: {"type":"transcript.text.delta","delta":"hel`. -/
def sseReadA : List Char :=
  "data: \x7b\"type\":\"transcript.text.delta\",\"delta\":\"hel".toList

/-- The second half of that frame, delivered by a later read:
`lo"}\n\n`. -/
def sseReadB : List Char := "lo\"\x7d\n\n".toList

/-- A read consisting of one complete `[DONE]` frame. -/
def sseDoneRead : List Char := "data: [DONE]\n".toList

/-- A later read carrying a complete `transcript.text.done` frame with text
`late`. -/
def sseLateRead : List Char :=
  "data: \x7b\"type\":\"transcript.text.done\",\"text\":\"late\"\x7d\n".toList

/-- A complete `[DONE]` line. -/
def doneLine : List Char := "data: [DONE]".toList

/-! ### Multipart stream encoder of `transcribeOpenAIStreaming`

The request body is a single `ReadableStream` that enqueues, in order: the
preamble (the `model` and `stream` fields and the `file` part's headers),
then every audio chunk byte-for-byte in arrival order, then — only after the
audio source reports completion — the closing boundary. -/

/-- The header line `Content-Disposition: form-data; name="<name>"`. -/
def cdNameLine (name : List Char) : List Char :=
  "Content-Disposition: form-data; name=\"".toList ++ name ++ "\"".toList

/-- The `file` part's `Content-Disposition` header line. -/
def cdFileLine : List Char :=
  "Content-Disposition: form-data; name=\"file\"; filename=\"audio.webm\"".toList

/-- The `Content-Type: ` header prelude of the `file` part. -/
def ctHeader : List Char := "Content-Type: ".toList

/-- One static form field as emitted by the encoder:
`--<b>\r\n<CD line>\r\n\r\n<value>\r\n`. -/
def fieldBlock (b name value : List Char) : List Char :=
  dashdash ++ b ++ crlf ++ cdNameLine name ++ crlf ++ crlf ++ value ++ crlf

/-- The `file` part's opening: boundary line, disposition header, content
type (`mediaRecorder.mimeType || "audio/webm"`), blank line. -/
def fileHeaderBlock (b mime : List Char) : List Char :=
  dashdash ++ b ++ crlf ++ cdFileLine ++ crlf ++ ctHeader ++ mime ++ crlf ++ crlf

/-- The preamble enqueued before any audio byte: `model` field, `stream`
field (value `true`), then the `file` part headers. -/
def openaiPreamble (b mime : List Char) : List Char :=
  fieldBlock b "model".toList "gpt-4o-mini-transcribe".toList ++
  fieldBlock b "stream".toList "true".toList ++
  fileHeaderBlock b mime

/-- The epilogue enqueued after the audio source completes:
`\r\n--<b>--\r\n`. -/
def openaiEpilogue (b : List Char) : List Char :=
  crlf ++ dashdash ++ b ++ dashdash ++ crlf

/-- The segments enqueued into the multipart `ReadableStream`, in enqueue
order: preamble first, then each chunk as it arrives, then the epilogue. -/
def multipartSegments (b mime : List Char) (chunks : List (List Char)) :
    List (List Char) :=
  openaiPreamble b mime :: chunks ++ [openaiEpilogue b]

/-- The full byte sequence produced by the encoder. -/
def openaiMultipartBody (b mime : List Char) (chunks : List (List Char)) :
    List Char :=
  (multipartSegments b mime chunks).flatten

/-! ### An independent multipart/form-data reader

`parseMultipart` parses a body against a boundary token the way a
multipart/form-data consumer does: strip the opening `--<b>\r\n`, then for
each part read header lines up to a blank line, read the content up to the
next `\r\n--<b>` delimiter, and continue with the next part after `\r\n` or
finish at the closing `--\r\n`. It is used to state the round-trip property
of the encoder. -/

/-- Header lines of one part: lines separated by CRLF, ended by an empty
line. -/
def parseHeaderLines : Nat → List Char → Option (List (List Char) × List Char)
  | 0, _ => none
  | fuel + 1, input =>
    match splitFirst crlf input with
    | none => none
    | some (line, rest) =>
      if line = [] then some ([], rest)
      else
        match parseHeaderLines fuel rest with
        | some (ls, r) => some (line :: ls, r)
        | none => none

/-- One part: header lines, then content up to the `\r\n--<b>` delimiter.
Returns the part and `none` when the closing `--\r\n` follows (end of body),
or `some rest` positioned at the next part. -/
def parsePart (b input : List Char) :
    Option ((List (List Char) × List Char) × Option (List Char)) :=
  match parseHeaderLines (input.length + 1) input with
  | none => none
  | some (hls, r1) =>
    match splitFirst (crlf ++ dashdash ++ b) r1 with
    | none => none
    | some (content, r2) =>
      if r2 = dashdash ++ crlf then some ((hls, content), none)
      else
        match dropPrefixQ crlf r2 with
        | none => none
        | some r3 => some ((hls, content), some r3)

/-- All parts of the body. -/
def parsePartsAux (b : List Char) : Nat → List Char →
    Option (List (List (List Char) × List Char))
  | 0, _ => none
  | fuel + 1, input =>
    match parsePart b input with
    | none => none
    | some (p, none) => some [p]
    | some (p, some rest) =>
      match parsePartsAux b fuel rest with
      | none => none
      | some ps => some (p :: ps)

/-- Parse a multipart/form-data body against boundary `b`, returning for
each part its header lines and its raw content bytes. -/
def parseMultipart (b input : List Char) :
    Option (List (List (List Char) × List Char)) :=
  match dropPrefixQ (dashdash ++ b ++ crlf) input with
  | none => none
  | some r => parsePartsAux b (r.length + 1) r

/-- The form-field name declared by a part's first header line. -/
def partName (hls : List (List Char)) : Option (List Char) :=
  match hls with
  | l :: _ =>
    (dropPrefixQ "Content-Disposition: form-data; name=\"".toList l).map
      fun r => r.takeWhile fun c => c ≠ '"'
  | [] => none

/-- Predicate: `delim` first occurs in `a ++ delim ++ tail` exactly at the junction:
the non-collision assumption for content scanning (the spec's "boundary token
must not collide with literal content"). -/
def SplitsCleanly (delim a tail : List Char) : Prop :=
  splitFirst delim (a ++ delim ++ tail) = some (a, tail)

instance (delim a tail : List Char) : Decidable (SplitsCleanly delim a tail) := by
  unfold SplitsCleanly; infer_instance

/-! ## Helper lemmas for the multipart reader -/

theorem isPrefixOf_append_self (p t : List Char) : p.isPrefixOf (p ++ t) = true := by
  simp [List.isPrefixOf_iff_prefix]

theorem dropPrefixQ_append (p l : List Char) : dropPrefixQ p (p ++ l) = some l := by
  simp [dropPrefixQ, isPrefixOf_append_self, List.drop_left]

theorem splitFirst_at_head (d : Char) (ds b : List Char) :
    splitFirst (d :: ds) (d :: (ds ++ b)) = some ([], b) := by
  have h := isPrefixOf_append_self (d :: ds) b
  simp only [List.cons_append] at h
  simp [splitFirst, h, List.drop_left]

theorem splitFirst_not_mem (d : Char) (ds a b : List Char) (ha : d ∉ a) :
    splitFirst (d :: ds) (a ++ ((d :: ds) ++ b)) = some (a, b) := by
  induction a with
  | nil => simpa using splitFirst_at_head d ds b
  | cons x xs ih =>
    have hdx : d ≠ x := fun hh => ha (hh ▸ List.mem_cons_self x xs)
    have ha' : d ∉ xs := fun hm => ha (List.mem_cons_of_mem _ hm)
    have ih' := ih ha'
    simp only [List.cons_append] at ih'
    simp [splitFirst, hdx, ih']

/-- Sufficient condition for `SplitsCleanly`: the delimiter's first character
does not occur in the content at all. -/
theorem splitsCleanly_of_not_mem (d : Char) (ds a tail : List Char) (ha : d ∉ a) :
    SplitsCleanly (d :: ds) a tail := by
  unfold SplitsCleanly
  simpa [List.append_assoc] using splitFirst_not_mem d ds a tail ha

theorem parseHeaderLines_one (l1 rest : List Char) (h1 : '\r' ∉ l1)
    (hne : l1 ≠ []) :
    ∀ fuel, 2 ≤ fuel →
      parseHeaderLines fuel (l1 ++ (crlf ++ (crlf ++ rest))) = some ([l1], rest) := by
  intro fuel hf
  obtain ⟨k, rfl⟩ : ∃ k, fuel = k + 2 := ⟨fuel - 2, by omega⟩
  have hs1 : splitFirst crlf (l1 ++ (crlf ++ (crlf ++ rest))) =
      some (l1, crlf ++ rest) := by
    simpa [crlf] using splitFirst_not_mem '\r' ['\n'] l1 (crlf ++ rest) h1
  have hs2 : splitFirst crlf (crlf ++ rest) = some ([], rest) := by
    simpa [crlf] using splitFirst_at_head '\r' ['\n'] rest
  show parseHeaderLines (k + 1 + 1) _ = _
  simp [parseHeaderLines, hs1, hs2, hne]

theorem parseHeaderLines_two (l1 l2 rest : List Char)
    (h1 : '\r' ∉ l1) (h2 : '\r' ∉ l2) (hne1 : l1 ≠ []) (hne2 : l2 ≠ []) :
    ∀ fuel, 3 ≤ fuel →
      parseHeaderLines fuel (l1 ++ (crlf ++ (l2 ++ (crlf ++ (crlf ++ rest))))) =
        some ([l1, l2], rest) := by
  intro fuel hf
  obtain ⟨k, rfl⟩ : ∃ k, fuel = k + 3 := ⟨fuel - 3, by omega⟩
  have hs1 : splitFirst crlf (l1 ++ (crlf ++ (l2 ++ (crlf ++ (crlf ++ rest))))) =
      some (l1, l2 ++ (crlf ++ (crlf ++ rest))) := by
    simpa [crlf] using
      splitFirst_not_mem '\r' ['\n'] l1 (l2 ++ (crlf ++ (crlf ++ rest))) h1
  have hs2 : splitFirst crlf (l2 ++ (crlf ++ (crlf ++ rest))) =
      some (l2, crlf ++ rest) := by
    simpa [crlf] using splitFirst_not_mem '\r' ['\n'] l2 (crlf ++ rest) h2
  have hs3 : splitFirst crlf (crlf ++ rest) = some ([], rest) := by
    simpa [crlf] using splitFirst_at_head '\r' ['\n'] rest
  show parseHeaderLines (k + 1 + 1 + 1) _ = _
  simp [parseHeaderLines, hs1, hs2, hs3, hne1, hne2]

theorem crlf_ne_close (rest : List Char) : ¬ (crlf ++ rest = dashdash ++ crlf) := by
  simp [crlf, dashdash]

theorem parsePart_field (b name value rest : List Char)
    (hn : '\r' ∉ cdNameLine name) (hv : '\r' ∉ value) :
    parsePart b (cdNameLine name ++ (crlf ++ (crlf ++
        (value ++ (crlf ++ (dashdash ++ (b ++ (crlf ++ rest)))))))) =
      some (([cdNameLine name], value), some rest) := by
  have hlit : ("Content-Disposition: form-data; name=\"".toList).length = 38 := by
    decide
  have h1 : 0 < (cdNameLine name).length := by
    rw [cdNameLine, List.length_append, List.length_append, hlit]; omega
  have hnne : cdNameLine name ≠ [] := List.length_pos.mp h1
  have hhl := parseHeaderLines_one (cdNameLine name)
      (value ++ (crlf ++ (dashdash ++ (b ++ (crlf ++ rest))))) hn hnne
      ((cdNameLine name ++ (crlf ++ (crlf ++
        (value ++ (crlf ++ (dashdash ++ (b ++ (crlf ++ rest)))))))).length + 1)
      (by rw [List.length_append]; omega)
  have hsp : splitFirst (crlf ++ dashdash ++ b)
      (value ++ (crlf ++ (dashdash ++ (b ++ (crlf ++ rest))))) =
      some (value, crlf ++ rest) := by
    have h := splitFirst_not_mem '\r' ('\n' :: '-' :: '-' :: b) value (crlf ++ rest) hv
    simp only [crlf, dashdash, List.cons_append, List.nil_append,
      List.append_assoc] at h ⊢
    exact h
  simp only [parsePart, hhl, hsp]
  rw [if_neg (crlf_ne_close rest)]
  simp [dropPrefixQ_append]

theorem parsePart_file (b mime audio : List Char) (hm : '\r' ∉ mime)
    (hclean : SplitsCleanly (crlf ++ dashdash ++ b) audio (dashdash ++ crlf)) :
    parsePart b (cdFileLine ++ (crlf ++ ((ctHeader ++ mime) ++ (crlf ++ (crlf ++
        (audio ++ (crlf ++ (dashdash ++ (b ++ (dashdash ++ crlf)))))))))) =
      some (([cdFileLine, ctHeader ++ mime], audio), none) := by
  have hcdr : '\r' ∉ cdFileLine := by decide
  have hcdne : cdFileLine ≠ [] := by decide
  have hctr : '\r' ∉ ctHeader ++ mime := by
    intro hmem
    rcases List.mem_append.mp hmem with h | h
    · exact absurd h (by decide)
    · exact hm h
  have h14 : ctHeader.length = 14 := by decide
  have hctne : ctHeader ++ mime ≠ [] := by
    intro hh
    have := congrArg List.length hh
    rw [List.length_append] at this
    simp [h14] at this
  have h66 : cdFileLine.length = 66 := by decide
  have hhl := parseHeaderLines_two cdFileLine (ctHeader ++ mime)
      (audio ++ (crlf ++ (dashdash ++ (b ++ (dashdash ++ crlf)))))
      hcdr hctr hcdne hctne
      ((cdFileLine ++ (crlf ++ ((ctHeader ++ mime) ++ (crlf ++ (crlf ++
        (audio ++ (crlf ++ (dashdash ++ (b ++ (dashdash ++ crlf)))))))))).length + 1)
      (by rw [List.length_append, h66]; omega)
  have hsp : splitFirst (crlf ++ dashdash ++ b)
      (audio ++ (crlf ++ (dashdash ++ (b ++ (dashdash ++ crlf))))) =
      some (audio, dashdash ++ crlf) := by
    have h := hclean
    unfold SplitsCleanly at h
    simp only [List.append_assoc] at h ⊢
    exact h
  simp only [parsePart, hhl, hsp]
  simp

theorem parsePartsAux_three (b in1 in2 in3 : List Char)
    (p1 p2 p3 : List (List Char) × List Char)
    (h1 : parsePart b in1 = some (p1, some in2))
    (h2 : parsePart b in2 = some (p2, some in3))
    (h3 : parsePart b in3 = some (p3, none)) :
    ∀ fuel, 3 ≤ fuel → parsePartsAux b fuel in1 = some [p1, p2, p3] := by
  intro fuel hf
  obtain ⟨k, rfl⟩ : ∃ k, fuel = k + 3 := ⟨fuel - 3, by omega⟩
  show parsePartsAux b (k + 1 + 1 + 1) in1 = _
  simp [parsePartsAux, h1, h2, h3]

/-! ## Claim theorems -/

/-- C1, counterexample. The claim states that when the required credential is
absent, `start()` fails before any capture side effect and in particular that
no getUserMedia-equivalent call is observed. On a fresh OpenAI node with no
configured key, `start()` does throw the configuration error — but its effect
trace already contains the `getUserMedia` acquisition, because
`await this.startMicrophone()` precedes the credential check. -/
theorem c1_counterexample :
    (openaiStart none openaiFresh).2.2 = .error "Missing OpenAI API key" ∧
    (openaiStart none openaiFresh).2.1 = [.getUserMedia] :=
  ⟨rfl, rfl⟩

/-- C1, amended: with the credential absent, `start()` fails with the
configuration error before any NETWORK side effect (no request, no recorder
start) on the OpenAI nodes, and before ANY side effect at all on the Azure
node (whose credential check precedes microphone acquisition). -/
theorem c1_amended_credential_check (s : OpenAIState) (sa : AzureState)
    (hs : s.isStarted = false) (hsa : sa.isStarted = false) :
    (openaiStart none s).2.2 = .error "Missing OpenAI API key" ∧
    Effect.fetchStart ∉ (openaiStart none s).2.1 ∧
    Effect.recorderStart ∉ (openaiStart none s).2.1 ∧
    azureStart none sa = (sa, [], .rejectedMissing) := by
  cases hm : s.isMicStarted <;>
    simp [openaiStart, openaiStartMicrophone, azureStart, hs, hsa, hm]

/-- Witness for `c1_amended_credential_check` at fresh nodes. -/
theorem c1_amended_credential_check_witness :
    (openaiStart none openaiFresh).2.2 = .error "Missing OpenAI API key" ∧
    Effect.fetchStart ∉ (openaiStart none openaiFresh).2.1 ∧
    Effect.recorderStart ∉ (openaiStart none openaiFresh).2.1 ∧
    azureStart none azureFresh = (azureFresh, [], .rejectedMissing) :=
  c1_amended_credential_check openaiFresh azureFresh rfl rfl

/-- C2: aborting an in-flight cycle fires the cancellation signal, and when
the cancelled network call rejects, the settlement path resolves the pending
result with `""` — for the Azure node the caller's promise is resolved (never
rejected) with `""` and an empty final recognized event is dispatched; for
the OpenAI nodes `onError` dispatches the empty final event and the trailing
`.catch` absorbs the rejection, so nothing escapes to the host. -/
theorem c2_abort_resolves_empty (e : String) (sa : AzureState) (s : OpenAIState)
    (hsa : sa.isStarted = true) (hs : s.isStarted = true) :
    (azureAbort sa).2 = [.abortSignal] ∧
    (azureBeginSettle (.error e) (azureAbort sa).1).2.2 = "" ∧
    Effect.dispatchRecognized "" true ∈ (azureBeginSettle (.error e) (azureAbort sa).1).2.1 ∧
    (openaiAbort s).2 = [.abortSignal] ∧
    openaiSettle (.error e) = [.logError, .dispatchRecognized "" true, .logError] := by
  simp [azureAbort, azureBeginSettle, openaiAbort, openaiSettle,
    openaiTranscribeOutcome, hsa, hs]

/-- Witness for `c2_abort_resolves_empty` at started nodes. -/
theorem c2_abort_resolves_empty_witness :
    (azureAbort azureStarted).2 = [.abortSignal] ∧
    (azureBeginSettle (.error "AbortError") (azureAbort azureStarted).1).2.2 = "" ∧
    Effect.dispatchRecognized "" true ∈
      (azureBeginSettle (.error "AbortError") (azureAbort azureStarted).1).2.1 ∧
    (openaiAbort openaiStarted).2 = [.abortSignal] ∧
    openaiSettle (.error "AbortError") =
      [.logError, .dispatchRecognized "" true, .logError] :=
  c2_abort_resolves_empty "AbortError" azureStarted openaiStarted rfl rfl

/-- C3, counterexample. The claim states that for EVERY started session the
started flag is cleared synchronously by `abort()` itself. On a started Azure
node, `abort()` fires the signal but returns with `isStarted` still true —
the flag is only cleared later, in `beginTranscription`'s `finally`. -/
theorem c3_counterexample :
    (azureAbort azureStarted).2 = [.abortSignal] ∧
    (azureAbort azureStarted).1.isStarted = true :=
  ⟨rfl, rfl⟩

/-- C3, amended: the OpenAI nodes clear `isStarted` synchronously in
`abort()`; the Azure node leaves `isStarted` true when `abort()` returns and
clears it only when the aborted cycle settles. -/
theorem c3_amended_abort_state (s : OpenAIState) (sa : AzureState) (e : String)
    (hs : s.isStarted = true) (hsa : sa.isStarted = true) :
    (openaiAbort s).1.isStarted = false ∧
    (azureAbort sa).1.isStarted = true ∧
    (azureBeginSettle (.error e) (azureAbort sa).1).1.isStarted = false := by
  simp [openaiAbort, azureAbort, azureBeginSettle, hs, hsa]

/-- Witness for `c3_amended_abort_state` at started nodes. -/
theorem c3_amended_abort_state_witness :
    (openaiAbort openaiStarted).1.isStarted = false ∧
    (azureAbort azureStarted).1.isStarted = true ∧
    (azureBeginSettle (.error "AbortError") (azureAbort azureStarted).1).1.isStarted = false :=
  c3_amended_abort_state openaiStarted azureStarted "AbortError" rfl rfl

/-- C4, counterexample. The claim states that every failure after the cycle
begins is absorbed into an empty-string terminal event. In the local
recognition node, an `onerror` during a session with a pending transcription
promise rejects that promise with the recognizer error (so the failure is
handed to the caller of `start()`), and no recognized event is dispatched. -/
theorem c4_counterexample :
    (webOnError "network" (webStart webFresh).1).1.promise =
      some (.rejected "network") ∧
    (webOnError "network" (webStart webFresh).1).2 = [.logError] :=
  ⟨rfl, rfl⟩

/-- C4, amended: the OpenAI and Azure nodes absorb every post-start failure —
empty-string terminal event, logging, and no escaping rejection — but the
local recognition node's `onerror` rejects the pending `start()` promise with
the error and dispatches no event. -/
theorem c4_amended_error_absorption (e : String) (sa : AzureState) (sw : WebState)
    (hp : sw.promise = some .pending) :
    openaiSettle (.error e) = [.logError, .dispatchRecognized "" true, .logError] ∧
    (azureBeginSettle (.error e) sa).2.2 = "" ∧
    (azureBeginSettle (.error e) sa).2.1 = [.dispatchRecognized "" true, .logError] ∧
    (webOnError e sw).1.promise = some (.rejected e) ∧
    (webOnError e sw).2 = [.logError] := by
  cases hc : sw.continuous <;>
    simp [openaiSettle, openaiTranscribeOutcome, azureBeginSettle, webOnError,
      webInitSession, webStart, hp, hc]

/-- Witness for `c4_amended_error_absorption`. -/
theorem c4_amended_error_absorption_witness :
    openaiSettle (.error "boom") = [.logError, .dispatchRecognized "" true, .logError] ∧
    (azureBeginSettle (.error "boom") azureStarted).2.2 = "" ∧
    (azureBeginSettle (.error "boom") azureStarted).2.1 =
      [.dispatchRecognized "" true, .logError] ∧
    (webOnError "boom" (webStart webFresh).1).1.promise = some (.rejected "boom") ∧
    (webOnError "boom" (webStart webFresh).1).2 = [.logError] :=
  c4_amended_error_absorption "boom" azureStarted (webStart webFresh).1 rfl

/-- C5 (code bug), evaluated at the failing input. Start a fresh local
recognition session (one `initSession`, one `recognition.start()`), then fire
`onerror` while `continuous` is true: the handler re-initializes exactly once
(`initCalls` goes from 1 to 2) but the recognizer is never actually restarted
(`recogStartCalls` stays 1), because `initSession()` sets `isStarted` back to
true so the subsequent `this.start()` takes its already-started branch.
After an explicit `stop()` the `continuous` flag is checked and no
re-initialization happens at all. -/
theorem c5_code_bug_no_restart_on_error :
    ((webStart webFresh).1.initCalls = 1 ∧
     (webStart webFresh).1.recogStartCalls = 1 ∧
     (webStart webFresh).1.continuous = true) ∧
    ((webOnError "network" (webStart webFresh).1).1.initCalls = 2 ∧
     (webOnError "network" (webStart webFresh).1).1.recogStartCalls = 1 ∧
     (webOnError "network" (webStart webFresh).1).1.isStarted = true) ∧
    (webOnError "network" (webStop (webStart webFresh).1)).1.initCalls = 1 :=
  ⟨⟨rfl, rfl, rfl⟩, ⟨rfl, rfl, rfl⟩, rfl⟩

/-- C8: at most one cycle per session instance — `start()` on an already
started node returns without any effect (no second microphone acquisition,
no second network request), `startMicrophone()` while acquired returns
without prompting, and running `start()` twice in a row from a fresh OpenAI
node leaves the state of the first call untouched with an empty second
effect trace. -/
theorem c8_single_cycle (k : String) (creds : Option (String × String))
    (s : OpenAIState) (sa : AzureState) (s0 : OpenAIState)
    (hs : s.isStarted = true) (hm : s.isMicStarted = true)
    (hsa : sa.isStarted = true) (hma : sa.isMicrophoneStarted = true)
    (h0 : s0.isStarted = false) :
    openaiStart (some k) s = (s, [], .ok ()) ∧
    openaiStartMicrophone s = (s, []) ∧
    (azureStart creds sa).1 = sa ∧
    (azureStart creds sa).2.1 = [] ∧
    azureStartMicrophone sa = (sa, []) ∧
    openaiStart (some k) ((openaiStart (some k) s0).1) =
      ((openaiStart (some k) s0).1, [], .ok ()) := by
  cases hm0 : s0.isMicStarted <;>
    simp [openaiStart, openaiStartMicrophone, azureStart, azureStartMicrophone,
      hs, hm, hsa, hma, h0, hm0]

/-- Witness for `c8_single_cycle`. -/
theorem c8_single_cycle_witness :
    openaiStart (some "k") openaiStarted = (openaiStarted, [], .ok ()) ∧
    openaiStartMicrophone openaiStarted = (openaiStarted, []) ∧
    (azureStart (some ("k", "r")) azureStarted).1 = azureStarted ∧
    (azureStart (some ("k", "r")) azureStarted).2.1 = [] ∧
    azureStartMicrophone azureStarted = (azureStarted, []) ∧
    openaiStart (some "k") ((openaiStart (some "k") openaiFresh).1) =
      ((openaiStart (some "k") openaiFresh).1, [], .ok ()) :=
  c8_single_cycle "k" (some ("k", "r")) openaiStarted azureStarted openaiFresh
    rfl rfl rfl rfl rfl

/-- C10: on a successful launch the OpenAI nodes' `start()` settles with
`undefined` (`.ok ()`) while the transcription is still in flight, and the
final text reaches the caller only through the recognized event dispatched at
settlement; the Azure node's `start()` instead returns the pending
transcription promise, later resolved with the cycle's final transcript, and
the local recognition node's `start()` returns a promise resolved with the
final utterance text by `onresult`. -/
theorem c10_start_result_shapes (k ck cr t : String) (r : AzureTR)
    (s : OpenAIState) (sa : AzureState) (sw : WebState)
    (hs : s.isStarted = false) (hsa : sa.isStarted = false)
    (hsw : sw.isStarted = false) :
    ((openaiStart (some k) s).2.2 = .ok () ∧
     (openaiStart (some k) s).1.inFlight = true) ∧
    openaiSettle (.ok t) = [.dispatchRecognized t true] ∧
    ((azureStart (some (ck, cr)) sa).2.2 = .pending ∧
     (azureBeginSettle (.ok r) ((azureStart (some (ck, cr)) sa).1)).2.2 =
       r.combinedPhrases.head?.getD "") ∧
    ((webStart sw).2 = .fresh ∧
     (webOnResult t true ((webStart sw).1)).2.2 = some t) := by
  cases hm : s.isMicStarted <;> cases hma : sa.isMicrophoneStarted <;>
    simp [openaiStart, openaiStartMicrophone, openaiSettle, openaiTranscribeOutcome,
      azureStart, azureStartMicrophone, azureBeginSettle, webStart, webInitSession,
      webOnResult, hs, hsa, hsw, hm, hma]

/-- Witness for `c10_start_result_shapes`. -/
theorem c10_start_result_shapes_witness :
    ((openaiStart (some "k") openaiFresh).2.2 = .ok () ∧
     (openaiStart (some "k") openaiFresh).1.inFlight = true) ∧
    openaiSettle (.ok "hello") = [.dispatchRecognized "hello" true] ∧
    ((azureStart (some ("k", "r")) azureFresh).2.2 = .pending ∧
     (azureBeginSettle (.ok ⟨["hello world"]⟩)
        ((azureStart (some ("k", "r")) azureFresh).1)).2.2 =
       (AzureTR.mk ["hello world"]).combinedPhrases.head?.getD "") ∧
    ((webStart webFresh).2 = .fresh ∧
     (webOnResult "hello" true ((webStart webFresh).1)).2.2 = some "hello") :=
  c10_start_result_shapes "k" "k" "r" "hello" ⟨["hello world"]⟩
    openaiFresh azureFresh webFresh rfl rfl rfl

/-- C7: multipart round-trip. For every boundary token, mime type without a
carriage return, and sequence of audio chunks whose concatenation does not
contain the closing-boundary delimiter early (the spec's boundary
non-collision assumption), the byte sequence produced by the encoder parses
as multipart form data into exactly the `model` field (value
`gpt-4o-mini-transcribe`), the `stream` field (value `true`) and the `file`
part whose content is the exact byte concatenation of the chunks in arrival
order. Moreover the produced sequence is literally preamble, then audio,
then epilogue — the preamble is fully emitted before any audio byte and the
closing boundary comes only after the chunk source completes — and the parts
declare the field names `model`, `stream`, `file` in the encoder's order. -/
theorem c7_multipart_roundtrip (b mime : List Char) (chunks : List (List Char))
    (hm : '\r' ∉ mime)
    (hclean : SplitsCleanly (crlf ++ dashdash ++ b) chunks.flatten (dashdash ++ crlf)) :
    parseMultipart b (openaiMultipartBody b mime chunks) =
      some [([cdNameLine "model".toList], "gpt-4o-mini-transcribe".toList),
            ([cdNameLine "stream".toList], "true".toList),
            ([cdFileLine, ctHeader ++ mime], chunks.flatten)] ∧
    openaiMultipartBody b mime chunks =
      openaiPreamble b mime ++ chunks.flatten ++ openaiEpilogue b ∧
    partName [cdNameLine "model".toList] = some "model".toList ∧
    partName [cdNameLine "stream".toList] = some "stream".toList ∧
    partName [cdFileLine, ctHeader ++ mime] = some "file".toList := by
  have hbody : openaiMultipartBody b mime chunks =
      (dashdash ++ b ++ crlf) ++
      (cdNameLine "model".toList ++ (crlf ++ (crlf ++
        ("gpt-4o-mini-transcribe".toList ++ (crlf ++ (dashdash ++ (b ++ (crlf ++
      (cdNameLine "stream".toList ++ (crlf ++ (crlf ++
        ("true".toList ++ (crlf ++ (dashdash ++ (b ++ (crlf ++
      (cdFileLine ++ (crlf ++ ((ctHeader ++ mime) ++ (crlf ++ (crlf ++
        (chunks.flatten ++ (crlf ++ (dashdash ++ (b ++ (dashdash ++
          crlf)))))))))))))))))))))))))) := by
    simp [openaiMultipartBody, multipartSegments, openaiPreamble, fieldBlock,
      fileHeaderBlock, openaiEpilogue, List.flatten_append, List.append_assoc]
  refine ⟨?_, ?_, by decide, by decide, rfl⟩
  · rw [hbody]
    simp only [parseMultipart, dropPrefixQ_append]
    refine parsePartsAux_three b _ _ _ _ _ _
      (parsePart_field b "model".toList "gpt-4o-mini-transcribe".toList _
        (by decide) (by decide))
      (parsePart_field b "stream".toList "true".toList _
        (by decide) (by decide))
      (parsePart_file b mime chunks.flatten hm hclean)
      _ ?_
    rw [List.length_append]
    have : 2 ≤ (cdNameLine "model".toList).length := by decide
    omega
  · simp [openaiMultipartBody, multipartSegments, openaiPreamble, fieldBlock,
      fileHeaderBlock, openaiEpilogue, List.flatten_append, List.append_assoc]

/-- Witness for `c7_multipart_roundtrip` at a concrete boundary, the default
mime type, and chunks that contain carriage returns and dashes. -/
theorem c7_multipart_roundtrip_witness :
    parseMultipart "----WebKitFormBoundaryq7xyz".toList
        (openaiMultipartBody "----WebKitFormBoundaryq7xyz".toList
          "audio/webm".toList ["ab\r".toList, "\n--cd".toList]) =
      some [([cdNameLine "model".toList], "gpt-4o-mini-transcribe".toList),
            ([cdNameLine "stream".toList], "true".toList),
            ([cdFileLine, ctHeader ++ "audio/webm".toList],
             (["ab\r".toList, "\n--cd".toList] : List (List Char)).flatten)] ∧
    openaiMultipartBody "----WebKitFormBoundaryq7xyz".toList "audio/webm".toList
        ["ab\r".toList, "\n--cd".toList] =
      openaiPreamble "----WebKitFormBoundaryq7xyz".toList "audio/webm".toList ++
        (["ab\r".toList, "\n--cd".toList] : List (List Char)).flatten ++
        openaiEpilogue "----WebKitFormBoundaryq7xyz".toList ∧
    partName [cdNameLine "model".toList] = some "model".toList ∧
    partName [cdNameLine "stream".toList] = some "stream".toList ∧
    partName [cdFileLine, ctHeader ++ "audio/webm".toList] = some "file".toList :=
  c7_multipart_roundtrip "----WebKitFormBoundaryq7xyz".toList "audio/webm".toList
    ["ab\r".toList, "\n--cd".toList] (by decide) (by decide)

/-- C6, counterexample. The claim states that a `[DONE]` payload ends the
stream — no further frames processed, reading terminated. But the `break`
only leaves the inner loop over the current read's buffered lines: after a
read containing `data: [DONE]`, `finalText` is still the initial `""`, and a
`transcript.text.done` frame arriving in a LATER read is still processed and
overwrites `finalText` with `"late"`. -/
theorem c6_counterexample :
    (runReads [sseDoneRead] initSSE).finalText = some [] ∧
    (runReads [sseDoneRead, sseLateRead] initSSE).finalText = some "late".toList :=
  ⟨rfl, rfl⟩

/-- C6, amended: a `[DONE]` payload ends only the inner loop over the lines
buffered from the current read — the remaining lines of that read are
dropped unprocessed — while the outer read loop continues, and frames
delivered by later reads are still processed until the reader itself reports
the stream closed. -/
theorem c6_amended_done_inner_loop (st : SSEState) (rest : List (List Char)) :
    processLines st (doneLine :: rest) = st ∧
    (runReads [sseDoneRead, sseLateRead] initSSE).finalText = some "late".toList := by
  refine ⟨?_, rfl⟩
  have h1 : dataMarker.isPrefixOf doneLine = true := rfl
  have h2 : trimList (doneLine.drop 6) = "[DONE]".toList := rfl
  simp [processLines, h1, h2]

/-- C9: the streaming frame parser tolerates frames split across read
boundaries. Complete lines without the `data: ` marker are ignored; feeding
the spec's split delta frame (`…"delta":"hel` then `lo"}\n\n`) emits no
delta after the first read — the partial line is held in the buffer — and
after the second read emits the delta `hello` exactly once. -/
theorem c9_frame_buffering (line : List Char) (st : SSEState)
    (rest : List (List Char)) (h : dataMarker.isPrefixOf line = false) :
    processLines st (line :: rest) = processLines st rest ∧
    (processRead initSSE sseReadA).deltas = [] ∧
    (processRead initSSE sseReadA).buffer = sseReadA ∧
    (runReads [sseReadA, sseReadB] initSSE).deltas = [some "hello".toList] := by
  exact ⟨by simp [processLines, h], rfl, rfl, rfl⟩

/-- Witness for `c9_frame_buffering` at the line `event: x`. -/
theorem c9_frame_buffering_witness :
    processLines initSSE ["event: x".toList] = processLines initSSE [] ∧
    (processRead initSSE sseReadA).deltas = [] ∧
    (processRead initSSE sseReadA).buffer = sseReadA ∧
    (runReads [sseReadA, sseReadB] initSSE).deltas = [some "hello".toList] :=
  c9_frame_buffering "event: x".toList initSSE [] rfl

end NaturalKit
